import Mathlib

/-!
# Verification of aligned_atomic.hpp

A shallow embedding of the single-header library `aligned_atomic<T, Align>`:
a wrapper around `std::atomic<T>` that adds compile-time padding and custom
`operator new` / `operator delete` so that instances are always placed at
addresses that are multiples of `Align`.

Addresses and sizes are modelled as `Nat` (the C++ code computes with
`size_t`; the quantities involved never exceed the size of the block
actually obtained from `malloc`, so no wrap-around arises in the claims
considered here). The bytes touched by the allocation routine are modelled
as a function `Nat → Nat` mapping the byte address of a pointer-sized slot
to the pointer value stored there.
-/

namespace padding_impl

/-- The constexpr modulo operator of the header
(src/aligned_atomic.hpp, lines 29-33):
`constexpr size_t mod(size_t a, size_t b) \x7b return a - b * (a / b); \x7d`. -/
def mod (a b : Nat) : Nat := a - b * (a / b)

/-- The constant `padding_bytes<T, Align>::free_space =
Align - mod(sizeof(std::atomic<T>), Align)`
(src/aligned_atomic.hpp, lines 40-41), as a function of
`sz = sizeof(std::atomic<T>)`. -/
def free_space (sz Align : Nat) : Nat := Align - mod sz Align

/-- The constant `padding_bytes<T, Align>::required =
free_space > 1 ? free_space : 1` (src/aligned_atomic.hpp, line 42):
the size of the `char padding_[required]` member. -/
def required (sz Align : Nat) : Nat :=
  if free_space sz Align > 1 then free_space sz Align else 1

/-- Bytes contributed to the layout by the base class `padding<T, Align>`,
which is `std::conditional<mod(sizeof(std::atomic<T>), Align) != 0,
padding_bytes<T, Align>, empty_struct>::type`
(src/aligned_atomic.hpp, lines 51-56): the `padding_bytes` member when the
remainder is nonzero, nothing (the empty struct) otherwise. -/
def padding_contribution (sz Align : Nat) : Nat :=
  if mod sz Align ≠ 0 then required sz Align else 0

end padding_impl

namespace aligned_atomic

/-- The constant `alignment = (Align >= alignof(void*)) ? Align : alignof(void*)`
computed at the top of `operator new` (src/aligned_atomic.hpp, lines 84-85):
the effective alignment, at least that of a pointer. -/
def effectiveAlignment (Align ptrAlign : Nat) : Nat :=
  if Align ≥ ptrAlign then Align else ptrAlign

/-- Rounding a pointer up to the next multiple of `alignment`: the effect of
`std::align` on its pointer argument (the C++ standard specifies the first
address at or after the pointer that is a multiple of the alignment). -/
def alignUp (ptr alignment : Nat) : Nat :=
  ((ptr + alignment - 1) / alignment) * alignment

/-- The call `std::align(alignment, count, ptr, space)`: if the aligned
address plus `count` bytes fits in the `space` bytes starting at `ptr`,
return the aligned pointer together with the decreased space; otherwise fail
(returning `nullptr` and leaving `ptr` and `space` unchanged). -/
def stdAlign (alignment count ptr space : Nat) : Option (Nat × Nat) :=
  if alignUp ptr alignment - ptr + count ≤ space then
    some (alignUp ptr alignment, space - (alignUp ptr alignment - ptr))
  else none

/-- The allocation routine `aligned_atomic<T, Align>::operator new(count)`
(src/aligned_atomic.hpp, lines 81-107), parameterized by the platform
constants `ptrAlign = alignof(void*)` and `ptrSize = sizeof(void*)` and by
the result of the `std::malloc` call (`none` meaning `nullptr`).

Returns the pointer handed to the caller (`none` meaning `nullptr`)
together with the byte store after the back-pointer write. The source
discards the return value of `std::align`; on failure the pointer would
stay unadjusted, which the model reflects. -/
def operatorNew (Align ptrAlign ptrSize count : Nat)
    (mallocResult : Option Nat) (mem : Nat → Nat) :
    Option Nat × (Nat → Nat) :=
  match mallocResult with
  | none => (none, mem)
  | some p =>
    -- size_t space = count + alignment + sizeof(void*);
    let space := count + effectiveAlignment Align ptrAlign + ptrSize
    -- void* p_algn = static_cast<char*>(p) + sizeof(void*); space -= sizeof(void*);
    let p_algn := p + ptrSize
    let space1 := space - ptrSize
    -- (void)std::align(alignment, count, p_algn, space);
    let adjusted :=
      match stdAlign (effectiveAlignment Align ptrAlign) count p_algn space1 with
      | some (q, _) => q
      | none => p_algn
    -- *(static_cast<void**>(p_algn) - 1) = p;  return p_algn;
    (some adjusted, fun a => if a = adjusted - ptrSize then p else mem a)

/-- The deallocation routine `aligned_atomic<T, Align>::operator delete(ptr)`
(src/aligned_atomic.hpp, lines 109-115). The address `0` models the null
pointer. Returns `some q` when `std::free(q)` is called, `none` when nothing
is freed. -/
def operatorDelete (ptrSize ptr : Nat) (mem : Nat → Nat) : Option Nat :=
  if ptr ≠ 0 then some (mem (ptr - ptrSize)) else none

/-- The six `std::memory_order` values accepted by the atomic operations. -/
inductive MemoryOrder where
  | relaxed | consume | acquire | release | acq_rel | seq_cst
deriving DecidableEq, Repr

/-- The state of the `std::atomic<T>` subobject of an `aligned_atomic<T>`:
it manages one value of type `T`. -/
structure AtomicState (T : Type) where
  val : T
deriving DecidableEq, Repr

/-- The operation `std::atomic<T>::store(v, order)`: replaces the managed
value by `v` (the ordering argument constrains inter-thread visibility only,
which has no effect on the sequential value semantics modelled here). -/
def atomicStore {T : Type} (_a : AtomicState T) (v : T)
    (_order : MemoryOrder) : AtomicState T :=
  ⟨v⟩

/-- The operation `std::atomic<T>::load(order)`: returns the managed
value. -/
def atomicLoad {T : Type} (a : AtomicState T) (_order : MemoryOrder) : T :=
  a.val

/-- The base-class assignment `std::atomic<T>::operator=(x)`: per the C++
standard it is equivalent to `store(x)`, i.e. a store with the default
ordering `seq_cst`, and returns `x`. -/
def atomicAssign {T : Type} (a : AtomicState T) (x : T) :
    T × AtomicState T :=
  (x, atomicStore a x MemoryOrder.seq_cst)

/-- The redefined assignment operator of the wrapper
(src/aligned_atomic.hpp, line 76):
`T operator=(T x) noexcept \x7b return std::atomic<T>::operator=(x); \x7d`,
forwarding to the base-class assignment. -/
def assign {T : Type} (a : AtomicState T) (x : T) : T × AtomicState T :=
  atomicAssign a x

/-! ## Helper lemmas about the alignment arithmetic -/

theorem alignUp_le (x a : Nat) : alignUp x a ≤ x + a - 1 :=
  Nat.div_mul_le_self (x + a - 1) a

theorem le_alignUp (x a : Nat) (ha : 0 < a) : x ≤ alignUp x a := by
  have h1 := Nat.div_add_mod (x + a - 1) a
  have h2 := Nat.mod_lt (x + a - 1) ha
  unfold alignUp
  rw [Nat.mul_comm]
  omega

theorem alignUp_dvd (x a : Nat) : a ∣ alignUp x a :=
  dvd_mul_left a _

theorem effectiveAlignment_pos (Align ptrAlign : Nat) (hA : 0 < Align) :
    0 < effectiveAlignment Align ptrAlign := by
  unfold effectiveAlignment
  split <;> omega

/-- With the slack `count + alignment` that `operator new` provides, the
`std::align` step always succeeds and returns the rounded-up pointer. -/
theorem stdAlign_succeeds (alignment count ptr : Nat) (ha : 0 < alignment) :
    stdAlign alignment count ptr (count + alignment) =
      some (alignUp ptr alignment,
            count + alignment - (alignUp ptr alignment - ptr)) := by
  have h1 := le_alignUp ptr alignment ha
  have h2 := alignUp_le ptr alignment
  unfold stdAlign
  rw [if_pos (by omega)]

/-- Characterization of a successful `operator new`: the returned pointer is
the malloc pointer shifted past the back-pointer slot and rounded up to the
effective alignment, and the store gains the back-pointer immediately before
that address. -/
theorem operatorNew_some (Align ptrAlign ptrSize count p : Nat)
    (mem : Nat → Nat) (hA : 0 < Align) :
    operatorNew Align ptrAlign ptrSize count (some p) mem =
      (some (alignUp (p + ptrSize) (effectiveAlignment Align ptrAlign)),
       fun a =>
         if a = alignUp (p + ptrSize) (effectiveAlignment Align ptrAlign)
                  - ptrSize
         then p else mem a) := by
  have hEA := effectiveAlignment_pos Align ptrAlign hA
  simp only [operatorNew]
  rw [show count + effectiveAlignment Align ptrAlign + ptrSize - ptrSize
        = count + effectiveAlignment Align ptrAlign from by omega]
  rw [stdAlign_succeeds _ _ _ hEA]

end aligned_atomic

/-! ## Shared arithmetic helper -/

theorem mod_spec (a b : Nat) (hb : 0 < b) : padding_impl.mod a b = a % b := by
  have h := Nat.div_add_mod a b
  have hb' := hb
  unfold padding_impl.mod
  omega

theorem mod_zero_of_dvd (a b : Nat) (h : a ∣ b) : b % a = 0 := by
  obtain ⟨c, rfl⟩ := h
  exact Nat.mul_mod_right a c

/-! ## Claims -/

/-- Claim C6: for all size_t values a and b with b > 0, the compile-time
function mod(a, b) = a − b × (a / b) (explicit integer division and
subtraction, no remainder operator) equals the standard remainder of a
divided by b. -/
theorem mod_eq_remainder (a b : Nat) (hb : 0 < b) :
    padding_impl.mod a b = a % b :=
  mod_spec a b hb

theorem mod_eq_remainder_witness :
    (0:Nat) < 3 ∧ padding_impl.mod 7 3 = 7 % 3 :=
  ⟨by decide, mod_eq_remainder 7 3 (by decide)⟩

/-- Claim C4: for every value size sz = sizeof(std::atomic\<T>) and every
alignment A > 0, the padding region contributes 0 bytes when sz mod A = 0,
and otherwise contributes exactly A − (sz mod A) bytes, a value that is
always at least the 1-byte minimum the clamp enforces. -/
theorem padding_size_formula (sz A : Nat) (hA : 0 < A) :
    (sz % A = 0 → padding_impl.padding_contribution sz A = 0) ∧
    (sz % A ≠ 0 →
      padding_impl.padding_contribution sz A = A - sz % A ∧
      1 ≤ padding_impl.padding_contribution sz A) := by
  have hm := mod_spec sz A hA
  have hlt : sz % A < A := Nat.mod_lt sz hA
  unfold padding_impl.padding_contribution padding_impl.required
    padding_impl.free_space
  rw [hm]
  constructor
  · intro h
    rw [if_neg (by omega)]
  · intro h
    rw [if_pos h]
    split_ifs <;> omega

theorem padding_size_formula_witness :
    (0:Nat) < 8 ∧
    ((12 % 8 = 0 → padding_impl.padding_contribution 12 8 = 0) ∧
     (12 % 8 ≠ 0 →
       padding_impl.padding_contribution 12 8 = 8 - 12 % 8 ∧
       1 ≤ padding_impl.padding_contribution 12 8)) :=
  ⟨by decide, padding_size_formula 12 8 (by decide)⟩

/-- Claim C10: whenever the padding region is present
(mod(sizeof, Align) ≠ 0, with Align > 0), free_space is at least 1, so the
clamp required = free_space > 1 ? free_space : 1 never changes the result:
required always equals Align − (sizeof mod Align). -/
theorem clamp_never_changes_result (sz A : Nat) (hA : 0 < A)
    (h : padding_impl.mod sz A ≠ 0) :
    1 ≤ padding_impl.free_space sz A ∧
    padding_impl.required sz A = padding_impl.free_space sz A ∧
    padding_impl.required sz A = A - sz % A := by
  have hm := mod_spec sz A hA
  have hlt : sz % A < A := Nat.mod_lt sz hA
  rw [hm] at h
  unfold padding_impl.required padding_impl.free_space
  rw [hm]
  refine ⟨by omega, ?_, ?_⟩ <;> split_ifs <;> omega

theorem clamp_never_changes_result_witness :
    (0:Nat) < 8 ∧ padding_impl.mod 12 8 ≠ 0 ∧
    (1 ≤ padding_impl.free_space 12 8 ∧
     padding_impl.required 12 8 = padding_impl.free_space 12 8 ∧
     padding_impl.required 12 8 = 8 - 12 % 8) :=
  ⟨by decide, by decide, clamp_never_changes_result 12 8 (by decide) (by decide)⟩

/-- Claim C5: if the generic allocator is exhausted (malloc returns the null
sentinel), operator new returns the null sentinel to the caller and touches
nothing, for every requested size and alignment; the function is total, so
it never throws and never aborts. -/
theorem new_propagates_malloc_failure (Align ptrAlign ptrSize count : Nat)
    (mem : Nat → Nat) :
    aligned_atomic.operatorNew Align ptrAlign ptrSize count none mem
      = (none, mem) := rfl

/-- Claim C9: operator delete on a null pointer is a no-op: for every store
contents, it frees nothing through the generic allocator (in particular it
reads no back-pointer) and cannot fail. -/
theorem delete_null_is_noop (ptrSize : Nat) (mem : Nat → Nat) :
    aligned_atomic.operatorDelete ptrSize 0 mem = none := rfl

/-- Claim C3: with effective alignment EA = max(Align, alignof(void*)) and a
block of count + EA + sizeof(void*) bytes starting at p, the std::align
adjustment step on the candidate pointer p + sizeof(void*) with the
remaining space always succeeds, yielding an aligned address q with
q + count inside the block and the back-pointer slot q − sizeof(void*) not
before the block start; it consumes nothing beyond the block. -/
theorem align_step_always_succeeds (Align ptrAlign ptrSize count p : Nat)
    (hA : 0 < Align) :
    ∃ q s,
      aligned_atomic.stdAlign (aligned_atomic.effectiveAlignment Align ptrAlign)
          count (p + ptrSize)
          (count + aligned_atomic.effectiveAlignment Align ptrAlign + ptrSize
            - ptrSize) = some (q, s) ∧
      q + count ≤
        p + (count + aligned_atomic.effectiveAlignment Align ptrAlign + ptrSize) ∧
      p + ptrSize ≤ q := by
  have hEA := aligned_atomic.effectiveAlignment_pos Align ptrAlign hA
  have h1 := aligned_atomic.le_alignUp (p + ptrSize)
    (aligned_atomic.effectiveAlignment Align ptrAlign) hEA
  have h2 := aligned_atomic.alignUp_le (p + ptrSize)
    (aligned_atomic.effectiveAlignment Align ptrAlign)
  have heq : aligned_atomic.stdAlign
      (aligned_atomic.effectiveAlignment Align ptrAlign) count (p + ptrSize)
      (count + aligned_atomic.effectiveAlignment Align ptrAlign + ptrSize
        - ptrSize)
      = some (aligned_atomic.alignUp (p + ptrSize)
                (aligned_atomic.effectiveAlignment Align ptrAlign),
              count + aligned_atomic.effectiveAlignment Align ptrAlign
                - (aligned_atomic.alignUp (p + ptrSize)
                    (aligned_atomic.effectiveAlignment Align ptrAlign)
                   - (p + ptrSize))) := by
    rw [show count + aligned_atomic.effectiveAlignment Align ptrAlign + ptrSize
          - ptrSize = count + aligned_atomic.effectiveAlignment Align ptrAlign
        from by omega]
    exact aligned_atomic.stdAlign_succeeds _ count (p + ptrSize) hEA
  exact ⟨_, _, heq, by omega, h1⟩

theorem align_step_always_succeeds_witness :
    (0:Nat) < 64 ∧
    (∃ q s,
      aligned_atomic.stdAlign (aligned_atomic.effectiveAlignment 64 8) 4
          (123 + 8)
          (4 + aligned_atomic.effectiveAlignment 64 8 + 8 - 8) = some (q, s) ∧
      q + 4 ≤ 123 + (4 + aligned_atomic.effectiveAlignment 64 8 + 8) ∧
      123 + 8 ≤ q) :=
  ⟨by decide, align_step_always_succeeds 64 8 8 4 123 (by decide)⟩

/-- Claim C1: every successful allocation through operator new (Align and
alignof(void*) powers of two) returns an address congruent to 0 modulo the
effective alignment max(Align, alignof(void*)), and hence congruent to 0
modulo Align. -/
theorem new_returns_aligned_address (Align ptrAlign ptrSize count p q : Nat)
    (mem : Nat → Nat)
    (hA : ∃ i, Align = 2 ^ i) (hP : ∃ j, ptrAlign = 2 ^ j)
    (h : (aligned_atomic.operatorNew Align ptrAlign ptrSize count (some p)
            mem).1 = some q) :
    q % aligned_atomic.effectiveAlignment Align ptrAlign = 0 ∧
    q % Align = 0 := by
  obtain ⟨i, hi⟩ := hA
  obtain ⟨j, hj⟩ := hP
  have hA0 : 0 < Align := by
    rw [hi]; exact pow_pos (by norm_num) i
  have hEA0 := aligned_atomic.effectiveAlignment_pos Align ptrAlign hA0
  rw [aligned_atomic.operatorNew_some Align ptrAlign ptrSize count p mem hA0]
    at h
  have hq := Option.some.inj h
  have hd1 : aligned_atomic.effectiveAlignment Align ptrAlign ∣ q := by
    rw [← hq]; exact aligned_atomic.alignUp_dvd _ _
  have hd2 : Align ∣ aligned_atomic.effectiveAlignment Align ptrAlign := by
    unfold aligned_atomic.effectiveAlignment
    split_ifs with hcase
    · exact dvd_rfl
    · subst hi hj
      push_neg at hcase
      refine pow_dvd_pow 2 ?_
      by_contra hij
      push_neg at hij
      have := Nat.pow_le_pow_right (show 1 ≤ 2 by decide) (Nat.le_of_lt hij)
      omega
  exact ⟨mod_zero_of_dvd _ _ hd1, mod_zero_of_dvd _ _ (hd2.trans hd1)⟩

theorem new_returns_aligned_address_witness :
    (∃ i, (64:Nat) = 2 ^ i) ∧ (∃ j, (8:Nat) = 2 ^ j) ∧
    ((192:Nat) % aligned_atomic.effectiveAlignment 64 8 = 0 ∧
     (192:Nat) % 64 = 0) :=
  ⟨⟨6, rfl⟩, ⟨3, rfl⟩,
   new_returns_aligned_address 64 8 8 4 123 192 (fun _ => 0)
     ⟨6, rfl⟩ ⟨3, rfl⟩ (by rfl)⟩

/-- Claim C2: for every successful allocation, the pointer-sized slot
immediately before the returned aligned address holds exactly the pointer
malloc returned for the block, and a subsequent operator delete on the
returned address frees exactly that original pointer. -/
theorem new_then_delete_frees_original (Align ptrAlign ptrSize count p q : Nat)
    (mem : Nat → Nat) (hA : 0 < Align) (hS : 0 < ptrSize)
    (h : (aligned_atomic.operatorNew Align ptrAlign ptrSize count (some p)
            mem).1 = some q) :
    (aligned_atomic.operatorNew Align ptrAlign ptrSize count (some p) mem).2
        (q - ptrSize) = p ∧
    aligned_atomic.operatorDelete ptrSize q
        ((aligned_atomic.operatorNew Align ptrAlign ptrSize count (some p)
           mem).2)
      = some p := by
  have hEA := aligned_atomic.effectiveAlignment_pos Align ptrAlign hA
  have h1 := aligned_atomic.le_alignUp (p + ptrSize)
    (aligned_atomic.effectiveAlignment Align ptrAlign) hEA
  rw [aligned_atomic.operatorNew_some Align ptrAlign ptrSize count p mem hA]
    at h ⊢
  have hq := Option.some.inj h
  subst hq
  refine ⟨by simp, ?_⟩
  unfold aligned_atomic.operatorDelete
  rw [if_pos (by omega)]
  simp

theorem new_then_delete_frees_original_witness :
    (0:Nat) < 64 ∧ (0:Nat) < 8 ∧
    ((aligned_atomic.operatorNew 64 8 8 4 (some 123) (fun _ => 0)).2
        (192 - 8) = 123 ∧
     aligned_atomic.operatorDelete 8 192
        ((aligned_atomic.operatorNew 64 8 8 4 (some 123) (fun _ => 0)).2)
       = some 123) :=
  ⟨by decide, by decide,
   new_then_delete_frees_original 64 8 8 4 123 192 (fun _ => 0)
     (by decide) (by decide) (by rfl)⟩

/-- Claim C7: storing a value V and then immediately loading returns V, for
every wrapped type (scalar or struct-like alike) and all supported memory
orderings of the store and the load. -/
theorem store_then_load_roundtrip {T : Type} (a : aligned_atomic.AtomicState T)
    (v : T) (o o' : aligned_atomic.MemoryOrder) :
    aligned_atomic.atomicLoad (aligned_atomic.atomicStore a v o) o' = v := rfl

/-- Claim C8: the redefined assignment operator stores the assigned value
into the wrapped atomic with the default seq_cst ordering and returns the
assigned value. -/
theorem assign_stores_and_returns {T : Type} (a : aligned_atomic.AtomicState T)
    (x : T) (o : aligned_atomic.MemoryOrder) :
    (aligned_atomic.assign a x).1 = x ∧
    (aligned_atomic.assign a x).2
      = aligned_atomic.atomicStore a x aligned_atomic.MemoryOrder.seq_cst ∧
    aligned_atomic.atomicLoad (aligned_atomic.assign a x).2 o = x :=
  ⟨rfl, rfl, rfl⟩
